import Mathlib

/-!
# Verification of the fnodata pubsub websocket hub

Shallow embedding of the real-time publish/subscribe broadcast hub of the
fnodata repository (package `pubsub`: `websocket.go` as embedded in
`websocket_test.go`, and `pubsubhub.go`), together with theorems settling the
frozen claims about it.

Concurrency is modelled by making the hub's single-threaded event loop an
explicit state-transition function: the Go `select` loop becomes a function
consuming a list of inputs, Go channels become explicit queues with a closed
flag, and the Go registry map becomes an association list whose order stands
for the (arbitrary) map iteration order.
-/

deriving instance DecidableEq for Except

namespace Fnodata

/-- The `pstypes.HubSignal` enumeration (`SigSubscribe`, ..., `SigSyncStatus`).
The package `pubsub/types` is not part of the sources; the set of signal
constants is read off the alias block at the top of `websocket.go`. -/
inductive HubSignal where
  | sigSubscribe
  | sigUnsubscribe
  | sigNewBlock
  | sigMempoolUpdate
  | sigPingAndUserCount
  | sigNewTx
  | sigNewTxs
  | sigAddressTx
  | sigSyncStatus
deriving DecidableEq, Repr

/-- `pstypes.AddressMessage` with fields `Address` and `TxHash`. -/
structure AddressMessage where
  address : String
  txHash : String
deriving DecidableEq, Repr

/-- `exptypes.MempoolTx`, reduced to the one field the hub reads (`Hash`);
the hub treats transaction summaries as opaque payloads. -/
structure MempoolTx where
  hash : String
deriving DecidableEq, Repr

/-- The dynamic type of the `Msg interface{}` field of `pstypes.HubMessage`.
Each constructor stands for one concrete Go type that the code's runtime type
assertions distinguish:
`addrMsgPtr` is a (non-nil) `*pstypes.AddressMessage`, `addrMsgVal` is a
value-typed `pstypes.AddressMessage` (which fails the pointer type assertion,
as exercised by `Test_client_subscribe`), `mempoolTxPtr` is a non-nil
`*exptypes.MempoolTx`, `txListMsg` is a `[]*exptypes.MempoolTx` slice, and
`noMsg` is a nil interface. -/
inductive HubMsgPayload where
  | noMsg
  | addrMsgPtr (am : AddressMessage)
  | addrMsgVal (am : AddressMessage)
  | mempoolTxPtr (tx : MempoolTx)
  | txListMsg (txs : List MempoolTx)
deriving DecidableEq, Repr

/-- `pstypes.HubMessage`: a signal together with its dynamically-typed payload. -/
structure HubMessage where
  signal : HubSignal
  msg : HubMsgPayload
deriving DecidableEq, Repr

/-- Modelled from the spec: `(pstypes.HubMessage).IsValid` is not under the
sources (package `pubsub/types` is missing); per the spec, "validity is a pure
function of (kind, payload-type-matches-kind)": address-activity carries an
`AddressMessage`, single-new-transaction carries a `MempoolTx`, the batched
new-transactions event carries a transaction-list slice, and the remaining
kinds carry no payload. -/
def HubMessage.IsValid (m : HubMessage) : Bool :=
  match m.signal, m.msg with
  | .sigAddressTx, .addrMsgPtr _ => true
  | .sigAddressTx, _ => false
  | .sigNewTx, .mempoolTxPtr _ => true
  | .sigNewTx, _ => false
  | .sigNewTxs, .txListMsg _ => true
  | .sigNewTxs, _ => false
  | _, .noMsg => true
  | _, _ => false

/-- `NewTxBufferSize = 5` from `websocket.go`. -/
def NewTxBufferSize : Nat := 5

/-- `MaxPayloadBytes = 1 << 20` from `websocket.go`. -/
def MaxPayloadBytes : Nat := 1 <<< 20

/-- The delivery channel capacity: `make(hubSpoke, 16)` in `NewClientHubSpoke`. -/
def spokeCapacity : Nat := 16

/-- `pstypes.TxList`, the client transaction buffer contents
(`[]*exptypes.MempoolTx`). -/
abbrev TxList := List MempoolTx

/-- `(*txList).addTxToBuffer`: appends `tx` to the ordered buffer and reports
`readyToSend` exactly when the buffer length has reached `NewTxBufferSize`
after the append. Returns the new buffer contents together with the flag. -/
def TxList.addTxToBuffer (t : TxList) (tx : MempoolTx) : TxList × Bool :=
  let t1 := t ++ [tx]
  (t1, decide (NewTxBufferSize ≤ t1.length))

/-- The `sigNewTxs` case of `(*PubSubHub).sendLoop`: if the client's buffer is
empty nothing is sent (the loop just continues); otherwise the buffer contents
are sent and the buffer is reinitialized to empty. Returns the optional batch
sent and the new buffer contents. -/
def TxList.drainTxBuffer (t : TxList) : Option TxList × TxList :=
  if t.length = 0 then (none, t) else (some t, [])

/-- The per-connection `client` record of `websocket.go`: the set of
subscribed signals (`subs`), the set of subscribed addresses (`addrs`), and
the ordered outbound transaction buffer (`newTxs`). The Go maps used as sets
become finite sets; the mutex is the concurrency discipline, not data. -/
structure Client where
  subs : Finset HubSignal
  addrs : Finset String
  newTxs : TxList
deriving DecidableEq

/-- `newClient`: empty subscriptions, empty address set, empty tx buffer. -/
def newClient : Client :=
  { subs := ∅, addrs := ∅, newTxs := [] }

/-- `(*client).isSubscribed`: false when the signal is not in `subs`; for
`sigAddressTx` additionally requires the payload to be a `*AddressMessage`
(else log and return false) whose address is in `addrs`. -/
def Client.isSubscribed (c : Client) (msg : HubMessage) : Bool :=
  if msg.signal ∈ c.subs then
    match msg.signal, msg.msg with
    | .sigAddressTx, .addrMsgPtr am => decide (am.address ∈ c.addrs)
    | .sigAddressTx, _ => false
    | _, _ => true
  else false

/-- `(*client).subscribe`: for `sigAddressTx` the payload must be a
`*AddressMessage` (else an error and no change); on success the address is
added to `addrs`, and in every successful case the signal is added to `subs`. -/
def Client.subscribe (c : Client) (msg : HubMessage) : Except String Client :=
  match msg.signal, msg.msg with
  | .sigAddressTx, .addrMsgPtr am =>
      Except.ok { c with addrs := insert am.address c.addrs,
                         subs := insert HubSignal.sigAddressTx c.subs }
  | .sigAddressTx, _ =>
      Except.error "msg.Msg not a string (SigAddressTx)"
  | s, _ =>
      Except.ok { c with subs := insert s c.subs }

/-- `(*client).unsubscribe`: for `sigAddressTx` the payload must be a
`*AddressMessage` (else an error and no change) and the address is removed
from `addrs`; in every successful case the signal is removed from `subs`. -/
def Client.unsubscribe (c : Client) (msg : HubMessage) : Except String Client :=
  match msg.signal, msg.msg with
  | .sigAddressTx, .addrMsgPtr am =>
      Except.ok { c with addrs := c.addrs.erase am.address,
                         subs := c.subs.erase HubSignal.sigAddressTx }
  | .sigAddressTx, _ =>
      Except.error "msg.Msg not an AddressMessage (SigAddressTx)"
  | s, _ =>
      Except.ok { c with subs := c.subs.erase s }

/-- `(*client).unsubscribeAll`: clears `subs` and `addrs` (the tx buffer is
not touched). -/
def Client.unsubscribeAll (c : Client) : Client :=
  { c with subs := ∅, addrs := ∅ }

/-- Identity of a `*hubSpoke` channel pointer (the registry map key). -/
abbrev SpokeId := Nat

/-- The state of one `hubSpoke` delivery channel (`chan pstypes.HubMessage`
of capacity 16): the queued messages, whether it has been closed, and how
many times `close` has been executed on it (a second `close` would panic in
Go; the model counts instead so that theorems can assert the count stays 1). -/
structure HubChan where
  queue : List HubMessage
  closed : Bool
  closeCount : Nat
deriving DecidableEq, Repr

/-- A freshly made delivery channel: `make(hubSpoke, 16)`, open and empty. -/
def freshChan : HubChan :=
  { queue := [], closed := false, closeCount := 0 }

/-- `close(*c)` on a delivery channel. -/
def HubChan.closeChan (ch : HubChan) : HubChan :=
  { ch with closed := true, closeCount := ch.closeCount + 1 }

/-- The `WebsocketHub` state owned by the run loop: the registry
`clients map[*hubSpoke]*client` as an association list (list order plays the
role of the Go map's arbitrary iteration order), the state of every delivery
channel (total over spoke identities; identities never registered simply keep
their initial state), the `numClients` gauge, and the `timeToSendTxBuffer`
flag set by the periodic flush ticker. -/
structure WebsocketHub where
  clients : List (SpokeId × Client)
  chans : SpokeId → HubChan
  numClients : Nat
  timeToSendTxBuffer : Bool

/-- `registerClient` (run loop only): insert the new client and its fresh
delivery channel into the registry and update the client-count gauge. -/
def WebsocketHub.registerClient (h : WebsocketHub) (k : SpokeId) : WebsocketHub :=
  let clients1 := h.clients ++ [(k, newClient)]
  { h with clients := clients1,
           chans := fun i => if i = k then freshChan else h.chans i,
           numClients := clients1.length }

/-- `unregisterClient` (run loop only): if the key is unknown, log a warning
and do nothing (in particular the channel is not closed); otherwise delete
the registry entry, update the gauge, and close the channel. -/
def WebsocketHub.unregisterClient (h : WebsocketHub) (k : SpokeId) : WebsocketHub :=
  if h.clients.any (fun p => p.1 = k) then
    let clients1 := h.clients.filter (fun p => p.1 ≠ k)
    { h with clients := clients1,
             numClients := clients1.length,
             chans := fun i => if i = k then (h.chans k).closeChan else h.chans i }
  else h

/-- One step of the `unregisterAllClients` loop body: delete the spoke's
registry entry and close its channel (no gauge update, faithful to the Go
loop which never calls `setNumClients`). -/
def unregisterAllStep (acc : WebsocketHub) (k : SpokeId) : WebsocketHub :=
  { acc with clients := acc.clients.filter (fun p => p.1 ≠ k),
             chans := fun i => if i = k then (acc.chans k).closeChan else acc.chans i }

/-- `unregisterAllClients`: snapshot all spokes of the registry, then delete
and close each one. -/
def WebsocketHub.unregisterAllClients (h : WebsocketHub) : WebsocketHub :=
  (h.clients.map Prod.fst).foldl unregisterAllStep h

/-- `(*WebsocketHub).addTxToBuffer`: adds the tx to each client's buffer in
registry iteration order. Faithful to the source, the returned flag is
*overwritten* on every iteration (`someReadyToSend = client.newTxs.addTxToBuffer(tx)`),
so it ends up being the flag of the last-iterated client (false for an empty
registry), not the disjunction its doc comment describes. -/
def WebsocketHub.addTxToBuffer (h : WebsocketHub) (tx : MempoolTx) : WebsocketHub × Bool :=
  h.clients.foldl
    (fun (acc : WebsocketHub × Bool) kc =>
      let r := kc.2.newTxs.addTxToBuffer tx
      let hubAcc := acc.1
      let clients1 := hubAcc.clients.map
        (fun p => if p.1 = kc.1 then (p.1, { p.2 with newTxs := r.1 }) else p)
      ({ hubAcc with clients := clients1 }, r.2))
    (h, false)

/-- `(*WebsocketHub).MaybeSendTxns`: adds the tx to every client's buffer via
`addTxToBuffer` and returns its flag (the ticker-reset side signal on
`bufferTickerChan` only restarts the flush timer and is not part of the
broadcast state). -/
def WebsocketHub.MaybeSendTxns (h : WebsocketHub) (tx : MempoolTx) : WebsocketHub × Bool :=
  h.addTxToBuffer tx

/-- One iteration of the fan-out loop in `Run`: skip clients that are not
subscribed; otherwise attempt the non-blocking send
(`select { case *spoke <- hubMsg: default: unregisterClient }`): enqueue when
the channel has free space, unregister the client when it is full. -/
def fanoutStep (msg : HubMessage) (acc : WebsocketHub) (kc : SpokeId × Client) :
    WebsocketHub :=
  if kc.2.isSubscribed msg then
    let ch := acc.chans kc.1
    if ch.queue.length < spokeCapacity then
      { acc with chans := fun i => if i = kc.1 then { ch with queue := ch.queue ++ [msg] }
                                   else acc.chans i }
    else acc.unregisterClient kc.1
  else acc

/-- The fan-out loop of `Run` (`for spoke, client := range wsh.clients`),
iterating over the registry snapshot; only the currently visited entry is ever
removed, so iterating the snapshot matches the Go map range. -/
def WebsocketHub.fanout (h : WebsocketHub) (msg : HubMessage) : WebsocketHub :=
  h.clients.foldl (fanoutStep msg) h

/-- The body of the `case hubMsg := <-wsh.HubRelay` branch of `Run`:
discard when the registry is empty or the message is invalid; discard
subscribe/unsubscribe signals and unknown signals (`sigNewTxs` arriving on the
relay hits the `default` branch); for `sigAddressTx` re-check the payload; for
`sigNewTx` append to every buffer and, only when the (last-client) ready flag
or the flush ticker fired, rewrite the message to `sigNewTxs` with a nil slice
and fan out, then clear the flush flag; all other known signals fan out
directly. -/
def WebsocketHub.handleRelay (h : WebsocketHub) (msg : HubMessage) : WebsocketHub :=
  if h.clients.length = 0 then h
  else if ¬ msg.IsValid then h
  else
    match msg.signal with
    | .sigSubscribe | .sigUnsubscribe => h
    | .sigNewTxs => h
    | .sigAddressTx =>
        match msg.msg with
        | .addrMsgPtr _ => h.fanout msg
        | _ => h
    | .sigNewTx =>
        match msg.msg with
        | .mempoolTxPtr tx =>
            let r := h.MaybeSendTxns tx
            let h1 := r.1
            if ¬ (r.2 || h1.timeToSendTxBuffer) then h1
            else
              let msg1 : HubMessage := { signal := .sigNewTxs, msg := .txListMsg [] }
              let h2 := h1.fanout msg1
              { h2 with timeToSendTxBuffer := false }
        | _ => h
    | _ => h.fanout msg

/-- The inputs multiplexed by the `select` of the `Run` loop: a message on
`HubRelay`, a registration, an unregistration, or the `quitWSHandler` signal
sent by `Stop`. -/
inductive HubInput where
  | relay (msg : HubMessage)
  | register (k : SpokeId)
  | unregister (k : SpokeId)
  | quit

/-- The `Run` event loop over an explicit input sequence. Exhaustion of the
input list stands for the `HubRelay` channel being closed; both that and the
quit signal terminate the loop, after which the deferred
`unregisterAllClients` runs and any inputs still pending are drained without
being processed. -/
def WebsocketHub.runLoop (h : WebsocketHub) : List HubInput → WebsocketHub
  | [] => h.unregisterAllClients
  | (HubInput.relay msg) :: rest => (h.handleRelay msg).runLoop rest
  | (HubInput.register k) :: rest => (h.registerClient k).runLoop rest
  | (HubInput.unregister k) :: rest => (h.unregisterClient k).runLoop rest
  | HubInput.quit :: _ => h.unregisterAllClients

/-- `pstypes.WebSocketMessage`: the JSON envelope
`{event_id: string, message: string}` exchanged over the connection. -/
structure WebSocketMessage where
  eventId : String
  message : String
deriving DecidableEq, Repr

/-- Modelled from the spec: `pstypes.ValidateSubscription` (package
`pubsub/types` is not under the sources). Per the spec's subscription
argument grammar, the message is either a bare kind name (`newblock`,
`newtxs`, `mempool`, `ping`) or `address:<address-string>` for per-address
activity; anything else is invalid. -/
def ValidateSubscription (s : String) : Option HubMessage :=
  if s = "newblock" then some ⟨.sigNewBlock, .noMsg⟩
  else if s = "newtxs" then some ⟨.sigNewTxs, .noMsg⟩
  else if s = "mempool" then some ⟨.sigMempoolUpdate, .noMsg⟩
  else if s = "ping" then some ⟨.sigPingAndUserCount, .noMsg⟩
  else if s.startsWith "address:" then
    some ⟨.sigAddressTx, .addrMsgPtr ⟨s.drop 8, ""⟩⟩
  else none

/-- The synchronous request-servicing surface that `receiveLoop` delegates to
(`DecodeRawTransaction`, `SendRawTransaction`, the mempool inventory): a
black box returning response strings, per the spec's external-interface
boundary. -/
structure RequestEnv where
  decodeTx : String → String
  sendTx : String → String
  mempoolTxs : String

/-- The outcome of handling one successfully received client request in
`(*PubSubHub).receiveLoop`: either a response envelope is sent back (and the
loop continues with the possibly updated client subscription state), or the
loop continues without sending anything. Transport failures, which terminate
the loop, happen outside this per-message handling. -/
inductive RecvStep where
  | reply (resp : WebSocketMessage) (cl : Client)
  | silent (cl : Client)
deriving DecidableEq

/-- The per-message body of `(*PubSubHub).receiveLoop`: the response envelope
id is the request id with `"Resp"` appended; a message longer than the
request limit takes the over-limit branch, whose `continue` statement skips
the send at the bottom of the loop (the `"Request too large"` text assigned
to `resp.Message` is never transmitted); otherwise the request is dispatched
on its event id, with `ping` getting no response and unrecognized ids being
ignored. -/
def handleClientRequest (requestLimit : Nat) (env : RequestEnv)
    (cl : Client) (msg : WebSocketMessage) : RecvStep :=
  let respId := msg.eventId ++ "Resp"
  if requestLimit < msg.message.length then
    RecvStep.silent cl
  else if msg.eventId = "subscribe" then
    match ValidateSubscription msg.message with
    | none => RecvStep.reply ⟨respId, "invalid subscription"⟩ cl
    | some hm =>
        match cl.subscribe hm with
        | .error _ => RecvStep.reply ⟨respId, "invalid subscription"⟩ cl
        | .ok cl1 => RecvStep.reply ⟨respId, msg.message ++ " subscribe ok"⟩ cl1
  else if msg.eventId = "unsubscribe" then
    match ValidateSubscription msg.message with
    | none => RecvStep.reply ⟨respId, "invalid subscription"⟩ cl
    | some hm =>
        match cl.unsubscribe hm with
        | .error _ => RecvStep.reply ⟨respId, "invalid subscription"⟩ cl
        | .ok cl1 => RecvStep.reply ⟨respId, msg.message ++ " unsubscribe ok"⟩ cl1
  else if msg.eventId = "decodetx" then
    RecvStep.reply ⟨respId, env.decodeTx msg.message⟩ cl
  else if msg.eventId = "sendtx" then
    RecvStep.reply ⟨respId, env.sendTx msg.message⟩ cl
  else if msg.eventId = "getmempooltxs" then
    RecvStep.reply ⟨respId, env.mempoolTxs⟩ cl
  else if msg.eventId = "ping" then
    RecvStep.silent cl
  else
    RecvStep.silent cl

/-- Sequential appends through `TxList.addTxToBuffer`, collecting the
`readyToSend` flag of each append. -/
def addAllTxs (t : TxList) (txs : List MempoolTx) : TxList × List Bool :=
  txs.foldl
    (fun acc tx =>
      let r := acc.1.addTxToBuffer tx
      (r.1, acc.2 ++ [r.2]))
    (t, [])

/-! ## Theorems for the claims -/

/-- **C4**: starting from an empty buffer of capacity 5, the first four
appends report `readyToSend = false` and the fifth reports `true`; the buffer
then holds exactly the five summaries in arrival order; draining returns them
in that order and leaves the buffer empty; draining an empty buffer sends
nothing (`none`) rather than erring. -/
theorem txBuffer_fill_flags_and_drain (a b c d e : MempoolTx) :
    addAllTxs [] [a, b, c, d, e] = ([a, b, c, d, e], [false, false, false, false, true]) ∧
    TxList.drainTxBuffer [a, b, c, d, e] = (some [a, b, c, d, e], []) ∧
    TxList.drainTxBuffer [] = (none, []) :=
  ⟨rfl, rfl, rfl⟩

/-- A hub with a single registered client that has no subscriptions, used to
exhibit a tx buffer growing past its nominal capacity. -/
def hubC3 : WebsocketHub :=
  { clients := [(0, newClient)]
    chans := fun _ => freshChan
    numClients := 1
    timeToSendTxBuffer := false }

/-- **C3 counterexample**: the per-client buffer is *not* bounded by the
configured capacity 5: after six single-new-transaction events are processed
by the hub event-loop handler (with no intervening drain), the sole client's
buffer holds 6 pending summaries. -/
theorem txBuffer_exceeds_capacity :
    (((List.replicate 6 (HubMessage.mk .sigNewTx (.mempoolTxPtr ⟨"t"⟩))).foldl
        WebsocketHub.handleRelay hubC3).clients.map fun p => p.2.newTxs.length) = [6] := by
  decide

/-- **C3 (amended)**: the buffer preserves insertion order (each append goes
to the back) and the configured capacity 5 is the ready-to-flush threshold —
the append reports `readyToSend` exactly when the length after the append has
reached 5 — but the length itself is not capped and may exceed 5 between
drains. -/
theorem txBuffer_order_and_threshold (t : TxList) (tx : MempoolTx) :
    (t.addTxToBuffer tx).1 = t ++ [tx] ∧
    ((t.addTxToBuffer tx).2 = true ↔ NewTxBufferSize ≤ t.length + 1) := by
  refine ⟨rfl, ?_⟩
  simp [TxList.addTxToBuffer]

/-- **C7**: subscribing twice to the same kind/filter reaches exactly the
state of subscribing once (and still reports success), and unsubscribing a
kind — or, for address activity, a filter — that is not currently subscribed
succeeds as a no-op. -/
theorem subscription_idempotent_and_noop (c : Client) (m : HubMessage) :
    (∀ c1, c.subscribe m = Except.ok c1 → c1.subscribe m = Except.ok c1) ∧
    (∀ s : HubSignal, s ≠ HubSignal.sigAddressTx → s ∉ c.subs →
      ∀ p : HubMsgPayload, c.unsubscribe ⟨s, p⟩ = Except.ok c) ∧
    (∀ am : AddressMessage, HubSignal.sigAddressTx ∉ c.subs → am.address ∉ c.addrs →
      c.unsubscribe ⟨HubSignal.sigAddressTx, .addrMsgPtr am⟩ = Except.ok c) := by
  obtain ⟨sig, payload⟩ := m
  refine ⟨?_, ?_, ?_⟩
  · intro c1 h
    cases sig <;> cases payload <;>
      simp only [Client.subscribe, Except.ok.injEq] at h <;>
      first
        | (subst h; simp [Client.subscribe, Finset.insert_idem])
        | cases h
  · intro s hs hmem p
    cases s <;> cases p <;>
      simp_all [Client.unsubscribe, Finset.erase_eq_of_not_mem]
  · intro am hsub haddr
    simp [Client.unsubscribe, Finset.erase_eq_of_not_mem, hsub, haddr]

/-- Witness client for the C7 theorem: already subscribed to `sigNewTx`. -/
def clC7 : Client := { subs := {HubSignal.sigNewTx}, addrs := ∅, newTxs := [] }

/-- Closed instance of C7: re-subscribing `sigNewTx` leaves `clC7` unchanged,
and unsubscribing a never-subscribed kind or address filter from a fresh
client is a successful no-op. -/
theorem subscription_idempotent_and_noop_witness :
    clC7.subscribe ⟨HubSignal.sigNewTx, .noMsg⟩ = Except.ok clC7 ∧
    newClient.unsubscribe ⟨HubSignal.sigNewBlock, .noMsg⟩ = Except.ok newClient ∧
    newClient.unsubscribe ⟨HubSignal.sigAddressTx, .addrMsgPtr ⟨"Addr1", "h"⟩⟩ =
      Except.ok newClient :=
  ⟨(subscription_idempotent_and_noop newClient ⟨HubSignal.sigNewTx, .noMsg⟩).1 clC7
      (by decide),
   (subscription_idempotent_and_noop newClient ⟨HubSignal.sigNewBlock, .noMsg⟩).2.1
      HubSignal.sigNewBlock (by decide) (by decide) .noMsg,
   (subscription_idempotent_and_noop newClient
      ⟨HubSignal.sigAddressTx, .addrMsgPtr ⟨"Addr1", "h"⟩⟩).2.2 ⟨"Addr1", "h"⟩
      (by decide) (by decide)⟩

/-- **C8**: `isSubscribed` on an address-activity event is true exactly when
the kind is subscribed and the event's address is in the subscribed address
set; on any other kind it is true exactly when the kind is subscribed; and an
address-activity event whose payload is not a (pointer-typed) address message
is reported not-subscribed. -/
theorem isSubscribed_characterization (c : Client) :
    (∀ am : AddressMessage,
      (c.isSubscribed ⟨HubSignal.sigAddressTx, .addrMsgPtr am⟩ = true ↔
        HubSignal.sigAddressTx ∈ c.subs ∧ am.address ∈ c.addrs)) ∧
    (∀ msg : HubMessage, msg.signal ≠ HubSignal.sigAddressTx →
      (c.isSubscribed msg = true ↔ msg.signal ∈ c.subs)) ∧
    (∀ p : HubMsgPayload, (∀ am, p ≠ HubMsgPayload.addrMsgPtr am) →
      c.isSubscribed ⟨HubSignal.sigAddressTx, p⟩ = false) := by
  refine ⟨?_, ?_, ?_⟩
  · intro am
    by_cases hs : HubSignal.sigAddressTx ∈ c.subs <;>
      simp [Client.isSubscribed, hs]
  · intro msg hne
    by_cases hs : msg.signal ∈ c.subs
    · obtain ⟨sig, payload⟩ := msg
      cases sig <;> simp_all [Client.isSubscribed]
    · simp [Client.isSubscribed, hs]
  · intro p hp
    by_cases hs : HubSignal.sigAddressTx ∈ c.subs
    · cases p <;> simp_all [Client.isSubscribed]
    · simp [Client.isSubscribed, hs]

/-- Witness client for the C8 theorem: subscribed to address activity for
address `"A"` and to new blocks. -/
def clC8 : Client :=
  { subs := {HubSignal.sigAddressTx, HubSignal.sigNewBlock}, addrs := {"A"}, newTxs := [] }

/-- Closed instance of C8: `clC8` is subscribed to address-activity for
`"A"` but not `"B"`, is subscribed to new blocks, and a malformed
address-activity payload is reported not-subscribed. -/
theorem isSubscribed_characterization_witness :
    clC8.isSubscribed ⟨HubSignal.sigAddressTx, .addrMsgPtr ⟨"A", "h"⟩⟩ = true ∧
    ¬ clC8.isSubscribed ⟨HubSignal.sigAddressTx, .addrMsgPtr ⟨"B", "h"⟩⟩ = true ∧
    clC8.isSubscribed ⟨HubSignal.sigNewBlock, .noMsg⟩ = true ∧
    clC8.isSubscribed ⟨HubSignal.sigAddressTx, .addrMsgVal ⟨"A", "h"⟩⟩ = false :=
  ⟨((isSubscribed_characterization clC8).1 ⟨"A", "h"⟩).mpr (by decide),
   fun h => by
     have := ((isSubscribed_characterization clC8).1 ⟨"B", "h"⟩).mp h
     revert this
     decide,
   ((isSubscribed_characterization clC8).2.1 ⟨HubSignal.sigNewBlock, .noMsg⟩
      (by decide)).mpr (by decide),
   (isSubscribed_characterization clC8).2.2 (.addrMsgVal ⟨"A", "h"⟩)
      (fun am => by simp)⟩

/-- **C10**: for a client subscribed to address activity on two distinct
addresses `A` and `B`, one unsubscribe request naming `A` deletes the
address-activity kind from the subscribed-kind set outright, so afterwards an
address-activity event for `B` is reported not-subscribed even though `B` is
still in the subscribed address set. -/
theorem unsubscribe_address_removes_kind (c : Client) (A B tx1 tx2 : String)
    (hsub : HubSignal.sigAddressTx ∈ c.subs) (hA : A ∈ c.addrs) (hB : B ∈ c.addrs)
    (hne : A ≠ B) :
    ∃ c1, c.unsubscribe ⟨HubSignal.sigAddressTx, .addrMsgPtr ⟨A, tx1⟩⟩ = Except.ok c1 ∧
      HubSignal.sigAddressTx ∉ c1.subs ∧
      c1.isSubscribed ⟨HubSignal.sigAddressTx, .addrMsgPtr ⟨B, tx2⟩⟩ = false ∧
      B ∈ c1.addrs := by
  refine ⟨_, rfl, Finset.not_mem_erase _ _, ?_, ?_⟩
  · simp [Client.isSubscribed, Finset.not_mem_erase]
  · exact Finset.mem_erase.mpr ⟨fun h => hne h.symm, hB⟩

/-- Witness client for the C10 theorem: address activity subscribed for both
`"A"` and `"B"`. -/
def clC10 : Client :=
  { subs := {HubSignal.sigAddressTx}, addrs := {"A", "B"}, newTxs := [] }

/-- Closed instance of C10 at the concrete client `clC10`. -/
theorem unsubscribe_address_removes_kind_witness :
    ∃ c1, clC10.unsubscribe ⟨HubSignal.sigAddressTx, .addrMsgPtr ⟨"A", "h1"⟩⟩ =
        Except.ok c1 ∧
      HubSignal.sigAddressTx ∉ c1.subs ∧
      c1.isSubscribed ⟨HubSignal.sigAddressTx, .addrMsgPtr ⟨"B", "h2"⟩⟩ = false ∧
      "B" ∈ c1.addrs :=
  unsubscribe_address_removes_kind clC10 "A" "B" "h1" "h2"
    (by decide) (by decide) (by decide) (by decide)

/-- **C6**: unregistering the same spoke twice is safe: the first call (on a
registered spoke) removes it from the registry and closes its channel once;
the second call finds the key absent, changes nothing, and the channel's
close count stays at one more than before (no double close). -/
theorem unregister_twice_safe (h : WebsocketHub) (k : SpokeId)
    (hmem : (h.clients.any fun p => p.1 = k) = true) :
    ((h.unregisterClient k).clients.any fun p => p.1 = k) = false ∧
    (h.unregisterClient k).unregisterClient k = h.unregisterClient k ∧
    ((h.unregisterClient k).chans k).closeCount = (h.chans k).closeCount + 1 ∧
    (((h.unregisterClient k).unregisterClient k).chans k).closeCount =
      (h.chans k).closeCount + 1 := by
  have habsent : ((h.unregisterClient k).clients.any fun p => p.1 = k) = false := by
    rw [WebsocketHub.unregisterClient, if_pos hmem]
    simp only [List.any_eq_false, List.mem_filter, decide_eq_true_eq]
    intro p hp
    simpa using hp.2
  have hsecond : (h.unregisterClient k).unregisterClient k = h.unregisterClient k := by
    rw [WebsocketHub.unregisterClient, habsent]
    simp
  have hclose : ((h.unregisterClient k).chans k).closeCount = (h.chans k).closeCount + 1 := by
    rw [WebsocketHub.unregisterClient, if_pos hmem]
    simp [HubChan.closeChan]
  exact ⟨habsent, hsecond, hclose, by rw [hsecond]; exact hclose⟩

/-- A hub with two registered clients, for the C6 witness. -/
def hubC6 : WebsocketHub :=
  { clients := [(0, newClient), (7, newClient)]
    chans := fun _ => freshChan
    numClients := 2
    timeToSendTxBuffer := false }

/-- Closed instance of C6 at spoke 7 of `hubC6`. -/
theorem unregister_twice_safe_witness :
    ((hubC6.unregisterClient 7).clients.any fun p => p.1 = 7) = false ∧
    (hubC6.unregisterClient 7).unregisterClient 7 = hubC6.unregisterClient 7 ∧
    ((hubC6.unregisterClient 7).chans 7).closeCount = (hubC6.chans 7).closeCount + 1 ∧
    (((hubC6.unregisterClient 7).unregisterClient 7).chans 7).closeCount =
      (hubC6.chans 7).closeCount + 1 :=
  unregister_twice_safe hubC6 7 (by decide)

/-- **C2 (code evaluation)**: a request whose message exceeds the 1 MiB limit
is not processed further and the loop continues (the connection stays open),
but the handler returns `silent`: no "too large" rejection response is sent,
because the over-limit branch `continue`s without reaching the send. -/
theorem oversized_request_dropped (env : RequestEnv) (cl : Client)
    (msg : WebSocketMessage) (hbig : MaxPayloadBytes < msg.message.length) :
    handleClientRequest MaxPayloadBytes env cl msg = RecvStep.silent cl := by
  rw [handleClientRequest, if_pos hbig]

/-- A black-box request environment for the C2 witness. -/
def envC2 : RequestEnv :=
  { decodeTx := fun _ => "", sendTx := fun _ => "", mempoolTxs := "" }

/-- A subscribe request one byte over the 1 MiB limit. -/
def bigRequest : WebSocketMessage :=
  { eventId := "subscribe", message := String.mk (List.replicate (MaxPayloadBytes + 1) 'a') }

/-- Closed instance of C2's code evaluation at the 1 MiB + 1 request. -/
theorem oversized_request_dropped_witness :
    MaxPayloadBytes < bigRequest.message.length ∧
    handleClientRequest MaxPayloadBytes envC2 newClient bigRequest =
      RecvStep.silent newClient := by
  have hlen : bigRequest.message.length = MaxPayloadBytes + 1 := by
    show (String.mk (List.replicate (MaxPayloadBytes + 1) 'a')).length = MaxPayloadBytes + 1
    rw [String.length]
    exact List.length_replicate _ _
  have hbig : MaxPayloadBytes < bigRequest.message.length := by
    rw [hlen]; exact Nat.lt_succ_self _
  exact ⟨hbig, oversized_request_dropped envC2 newClient bigRequest hbig⟩

/-- First client of the C1 scenario: subscribed to batched new-transaction
events, with four summaries already buffered (one short of capacity). -/
def clC1a : Client :=
  { subs := {HubSignal.sigNewTxs}, addrs := ∅
    newTxs := [⟨"t1"⟩, ⟨"t2"⟩, ⟨"t3"⟩, ⟨"t4"⟩] }

/-- Second (last-iterated) client of the C1 scenario: subscribed to batched
new-transaction events, with an empty buffer. -/
def clC1b : Client :=
  { subs := {HubSignal.sigNewTxs}, addrs := ∅, newTxs := [] }

/-- The C1 hub: two registered clients, flush timer not fired. -/
def hubC1 : WebsocketHub :=
  { clients := [(0, clC1a), (1, clC1b)]
    chans := fun _ => freshChan
    numClients := 2
    timeToSendTxBuffer := false }

/-- The single-new-transaction event of the C1 scenario. -/
def msgC1 : HubMessage := { signal := .sigNewTx, msg := .mempoolTxPtr ⟨"t5"⟩ }

/-- **C1 (code evaluation at the failing input)**: processing the
single-new-transaction event appends to both buffers, bringing the first
client's buffer to capacity (5), yet nothing is enqueued on either delivery
channel: `addTxToBuffer` reports only the *last-iterated* client's ready flag
(here `false`), not "at least one buffer ready" as its own doc comment and
the claim state, so the batched fan-out is skipped. -/
theorem newTx_ready_flag_lost :
    ((hubC1.handleRelay msgC1).clients.map fun p => p.2.newTxs.length) = [5, 1] ∧
    ((hubC1.handleRelay msgC1).chans 0).queue = [] ∧
    ((hubC1.handleRelay msgC1).chans 1).queue = [] ∧
    (clC1a.newTxs.addTxToBuffer ⟨"t5"⟩).2 = true ∧
    (hubC1.addTxToBuffer ⟨"t5"⟩).2 = false := by
  decide

/-! ### Locality lemmas for unregistration and fan-out

The fan-out loop and the shutdown loop both thread the hub state through a
fold; these lemmas isolate the fact that each iteration touches only the
spoke it visits. -/

lemma unregisterClient_chans_ne (h : WebsocketHub) (k1 k : SpokeId) (hne : k1 ≠ k) :
    (h.unregisterClient k1).chans k = h.chans k := by
  rw [WebsocketHub.unregisterClient]
  split
  · exact if_neg fun hk => hne hk.symm
  · rfl

lemma unregisterClient_mem_ne (h : WebsocketHub) (k1 k : SpokeId) (cl : Client)
    (hne : k ≠ k1) (hmem : (k, cl) ∈ h.clients) :
    (k, cl) ∈ (h.unregisterClient k1).clients := by
  rw [WebsocketHub.unregisterClient]
  split
  · exact List.mem_filter.mpr ⟨hmem, by simpa using hne⟩
  · exact hmem

lemma unregisterClient_clients_subset (h : WebsocketHub) (k1 : SpokeId)
    (p : SpokeId × Client) (hp : p ∈ (h.unregisterClient k1).clients) :
    p ∈ h.clients := by
  rw [WebsocketHub.unregisterClient] at hp
  split at hp
  · exact (List.mem_filter.mp hp).1
  · exact hp

lemma unregisterClient_not_mem (h : WebsocketHub) (k : SpokeId) (cl : Client) :
    (k, cl) ∉ (h.unregisterClient k).clients := by
  rw [WebsocketHub.unregisterClient]
  split
  · intro hmem
    simpa using (List.mem_filter.mp hmem).2
  · next hany =>
    intro hmem
    exact hany (List.any_eq_true.mpr ⟨(k, cl), hmem, by simp⟩)

lemma unregisterClient_chans_self (h : WebsocketHub) (k : SpokeId)
    (hmem : (h.clients.any fun p => p.1 = k) = true) :
    (h.unregisterClient k).chans k = (h.chans k).closeChan := by
  rw [WebsocketHub.unregisterClient, if_pos hmem]
  simp

lemma fanoutStep_chans_ne (msg : HubMessage) (acc : WebsocketHub)
    (kc : SpokeId × Client) (k : SpokeId) (hne : kc.1 ≠ k) :
    (fanoutStep msg acc kc).chans k = acc.chans k := by
  simp only [fanoutStep]
  split
  · split
    · exact if_neg fun hk => hne hk.symm
    · exact unregisterClient_chans_ne acc kc.1 k hne
  · rfl

lemma fanoutStep_mem_ne (msg : HubMessage) (acc : WebsocketHub)
    (kc : SpokeId × Client) (k : SpokeId) (cl : Client) (hne : k ≠ kc.1)
    (hmem : (k, cl) ∈ acc.clients) :
    (k, cl) ∈ (fanoutStep msg acc kc).clients := by
  simp only [fanoutStep]
  split
  · split
    · exact hmem
    · exact unregisterClient_mem_ne acc kc.1 k cl hne hmem
  · exact hmem

lemma fanoutStep_clients_subset (msg : HubMessage) (acc : WebsocketHub)
    (kc : SpokeId × Client) (p : SpokeId × Client)
    (hp : p ∈ (fanoutStep msg acc kc).clients) : p ∈ acc.clients := by
  simp only [fanoutStep] at hp
  split at hp
  · split at hp
    · exact hp
    · exact unregisterClient_clients_subset acc kc.1 p hp
  · exact hp

lemma foldl_fanoutStep_chans (msg : HubMessage) (l : List (SpokeId × Client))
    (acc : WebsocketHub) (k : SpokeId) (hl : ∀ kc ∈ l, kc.1 ≠ k) :
    (l.foldl (fanoutStep msg) acc).chans k = acc.chans k := by
  induction l generalizing acc with
  | nil => rfl
  | cons kc l ih =>
      rw [List.foldl_cons, ih _ fun x hx => hl x (List.mem_cons_of_mem _ hx)]
      exact fanoutStep_chans_ne msg acc kc k (hl kc (List.mem_cons_self _ _))

lemma foldl_fanoutStep_mem (msg : HubMessage) (l : List (SpokeId × Client))
    (acc : WebsocketHub) (k : SpokeId) (cl : Client) (hl : ∀ kc ∈ l, kc.1 ≠ k)
    (hmem : (k, cl) ∈ acc.clients) :
    (k, cl) ∈ (l.foldl (fanoutStep msg) acc).clients := by
  induction l generalizing acc with
  | nil => exact hmem
  | cons kc l ih =>
      rw [List.foldl_cons]
      exact ih _ (fun x hx => hl x (List.mem_cons_of_mem _ hx))
        (fanoutStep_mem_ne msg acc kc k cl
          (fun hk => hl kc (List.mem_cons_self _ _) hk.symm) hmem)

lemma foldl_fanoutStep_not_mem (msg : HubMessage) (l : List (SpokeId × Client))
    (acc : WebsocketHub) (k : SpokeId)
    (habs : ∀ cl, (k, cl) ∉ acc.clients) :
    ∀ cl, (k, cl) ∉ (l.foldl (fanoutStep msg) acc).clients := by
  induction l generalizing acc with
  | nil => exact habs
  | cons kc l ih =>
      rw [List.foldl_cons]
      exact ih _ fun cl hmem =>
        habs cl (fanoutStep_clients_subset msg acc kc (k, cl) hmem)

/-- **C5**: in one fan-out round over a registry with distinct spoke keys,
every subscribed client whose capacity-16 delivery channel has free space
gets the event appended to its channel and stays registered, while a
subscribed client whose channel is full is unregistered — removed from the
registry with its channel closed — and the outcomes for distinct clients do
not interfere. -/
theorem backpressure_isolation (h : WebsocketHub) (msg : HubMessage)
    (hnd : (h.clients.map Prod.fst).Nodup) (k : SpokeId) (cl : Client)
    (hmem : (k, cl) ∈ h.clients) (hsub : cl.isSubscribed msg = true) :
    ((h.chans k).queue.length < spokeCapacity →
      ((h.fanout msg).chans k).queue = (h.chans k).queue ++ [msg] ∧
      (k, cl) ∈ (h.fanout msg).clients) ∧
    (spokeCapacity ≤ (h.chans k).queue.length →
      (∀ cl1, (k, cl1) ∉ (h.fanout msg).clients) ∧
      (h.fanout msg).chans k = (h.chans k).closeChan) := by
  obtain ⟨pre, post, hsplit⟩ := List.append_of_mem hmem
  have hkeys : h.clients.map Prod.fst =
      pre.map Prod.fst ++ k :: post.map Prod.fst := by
    rw [hsplit]; simp
  rw [hkeys] at hnd
  have hknotpre : k ∉ pre.map Prod.fst := fun hk =>
    (List.disjoint_of_nodup_append hnd) hk (List.mem_cons_self _ _)
  have hknotpost : k ∉ post.map Prod.fst :=
    (List.nodup_cons.mp (List.Nodup.of_append_right hnd)).1
  have hkpre : ∀ kc ∈ pre, kc.1 ≠ k := fun kc hkc hk =>
    hknotpre (hk ▸ List.mem_map_of_mem Prod.fst hkc)
  have hkpost : ∀ kc ∈ post, kc.1 ≠ k := fun kc hkc hk =>
    hknotpost (hk ▸ List.mem_map_of_mem Prod.fst hkc)
  have hfan : h.fanout msg =
      post.foldl (fanoutStep msg)
        (fanoutStep msg (pre.foldl (fanoutStep msg) h) (k, cl)) := by
    rw [WebsocketHub.fanout, hsplit, List.foldl_append, List.foldl_cons]
  have hchpre : (pre.foldl (fanoutStep msg) h).chans k = h.chans k :=
    foldl_fanoutStep_chans msg pre h k hkpre
  have hmempre : (k, cl) ∈ (pre.foldl (fanoutStep msg) h).clients :=
    foldl_fanoutStep_mem msg pre h k cl hkpre hmem
  constructor
  · intro hspace
    have hstep : fanoutStep msg (pre.foldl (fanoutStep msg) h) (k, cl) =
        { pre.foldl (fanoutStep msg) h with
          chans := fun i => if i = k
            then { (pre.foldl (fanoutStep msg) h).chans k with
                   queue := ((pre.foldl (fanoutStep msg) h).chans k).queue ++ [msg] }
            else (pre.foldl (fanoutStep msg) h).chans i } := by
      simp only [fanoutStep]
      rw [if_pos hsub, if_pos (by rw [hchpre]; exact hspace)]
    constructor
    · rw [hfan, foldl_fanoutStep_chans msg post _ k hkpost, hstep]
      simp [hchpre]
    · rw [hfan]
      refine foldl_fanoutStep_mem msg post _ k cl hkpost ?_
      rw [hstep]
      exact hmempre
  · intro hfull
    have hstep : fanoutStep msg (pre.foldl (fanoutStep msg) h) (k, cl) =
        (pre.foldl (fanoutStep msg) h).unregisterClient k := by
      simp only [fanoutStep]
      rw [if_pos hsub, if_neg (by rw [hchpre]; exact Nat.not_lt.mpr hfull)]
    have hany : ((pre.foldl (fanoutStep msg) h).clients.any fun p => p.1 = k) = true :=
      List.any_eq_true.mpr ⟨(k, cl), hmempre, by simp⟩
    constructor
    · rw [hfan, hstep]
      refine foldl_fanoutStep_not_mem msg post _ k ?_
      intro cl1 hmem1
      have hin : (k, cl1) ∈ (pre.foldl (fanoutStep msg) h).clients :=
        unregisterClient_clients_subset _ k (k, cl1) hmem1
      have : (k, cl1) ∉ ((pre.foldl (fanoutStep msg) h).unregisterClient k).clients :=
        unregisterClient_not_mem _ k cl1
      exact this hmem1
    · rw [hfan, foldl_fanoutStep_chans msg post _ k hkpost, hstep,
        unregisterClient_chans_self _ k hany, hchpre]

/-- A client subscribed to new-block events, for the C5 witness. -/
def clC5 : Client := { subs := {HubSignal.sigNewBlock}, addrs := ∅, newTxs := [] }

/-- A saturated delivery channel: 16 messages queued. -/
def fullChan : HubChan :=
  { queue := List.replicate 16 ⟨.sigNewBlock, .noMsg⟩, closed := false, closeCount := 0 }

/-- The C5 hub: two subscribed clients, spoke 1's channel full, spoke 0's
channel empty. -/
def hubC5 : WebsocketHub :=
  { clients := [(0, clC5), (1, clC5)]
    chans := fun i => if i = 1 then fullChan else freshChan
    numClients := 2
    timeToSendTxBuffer := false }

/-- The new-block event broadcast in the C5 witness round. -/
def msgC5 : HubMessage := { signal := .sigNewBlock, msg := .noMsg }

/-- Closed instance of C5: after one round on `hubC5`, the healthy client
(spoke 0) has the event queued and stays registered, while the saturated
client (spoke 1) is unregistered and its channel closed. -/
theorem backpressure_isolation_witness :
    ((hubC5.fanout msgC5).chans 0).queue = (hubC5.chans 0).queue ++ [msgC5] ∧
    (0, clC5) ∈ (hubC5.fanout msgC5).clients ∧
    (∀ cl1, (1, cl1) ∉ (hubC5.fanout msgC5).clients) ∧
    (hubC5.fanout msgC5).chans 1 = (hubC5.chans 1).closeChan := by
  have h0 := backpressure_isolation hubC5 msgC5 (by decide) 0 clC5 (by decide) (by decide)
  have h1 := backpressure_isolation hubC5 msgC5 (by decide) 1 clC5 (by decide) (by decide)
  have h0s := h0.1 (by decide)
  have h1f := h1.2 (by decide)
  exact ⟨h0s.1, h0s.2, h1f.1, h1f.2⟩

lemma unregisterAllStep_chans_ne (acc : WebsocketHub) (k1 k : SpokeId)
    (hne : k1 ≠ k) : (unregisterAllStep acc k1).chans k = acc.chans k :=
  if_neg fun hk => hne hk.symm

lemma foldl_unregisterAllStep_chans_notmem (l : List SpokeId) (acc : WebsocketHub)
    (k : SpokeId) (hk : k ∉ l) :
    (l.foldl unregisterAllStep acc).chans k = acc.chans k := by
  induction l generalizing acc with
  | nil => rfl
  | cons k1 l ih =>
      rw [List.foldl_cons, ih _ fun h => hk (List.mem_cons_of_mem _ h)]
      exact unregisterAllStep_chans_ne acc k1 k fun h =>
        hk (h ▸ List.mem_cons_self _ _)

lemma foldl_unregisterAllStep_chans_mem (l : List SpokeId) (acc : WebsocketHub)
    (k : SpokeId) (hnd : l.Nodup) (hk : k ∈ l) :
    (l.foldl unregisterAllStep acc).chans k = (acc.chans k).closeChan := by
  induction l generalizing acc with
  | nil => cases hk
  | cons k1 l ih =>
      rw [List.foldl_cons]
      rcases List.mem_cons.mp hk with hk1 | hkl
      · subst hk1
        rw [foldl_unregisterAllStep_chans_notmem l _ k (List.nodup_cons.mp hnd).1]
        show (if k = k then (acc.chans k).closeChan else acc.chans k) = _
        rw [if_pos rfl]
      · rw [ih _ (List.nodup_cons.mp hnd).2 hkl]
        rw [unregisterAllStep_chans_ne acc k1 k
          fun h => (List.nodup_cons.mp hnd).1 (h ▸ hkl)]

lemma foldl_unregisterAllStep_clients_nil (l : List SpokeId) (acc : WebsocketHub)
    (hcov : ∀ p ∈ acc.clients, p.1 ∈ l) :
    (l.foldl unregisterAllStep acc).clients = [] := by
  induction l generalizing acc with
  | nil =>
      rw [List.foldl_nil]
      cases hacc : acc.clients with
      | nil => rfl
      | cons p ps =>
          have hin : p ∈ acc.clients := by
            rw [hacc]; exact List.mem_cons_self _ _
          exact absurd (hcov p hin) (by simp)
  | cons k1 l ih =>
      rw [List.foldl_cons]
      refine ih _ ?_
      intro p hp
      have hmem : p ∈ acc.clients ∧ p.1 ≠ k1 := by
        have := List.mem_filter.mp hp
        exact ⟨this.1, by simpa using this.2⟩
      rcases List.mem_cons.mp (hcov p hmem.1) with h1 | h2
      · exact absurd h1 hmem.2
      · exact h2

/-- **C9**: on receiving the shutdown signal the run loop terminates — the
final state does not depend on any inputs still pending, which are therefore
never processed — the registry is emptied, every delivery channel registered
at shutdown time is closed exactly once (its close count rises by exactly
one), and channels of spokes not registered at shutdown are untouched. -/
theorem shutdown_complete (h : WebsocketHub) (post : List HubInput)
    (hnd : (h.clients.map Prod.fst).Nodup) :
    h.runLoop (HubInput.quit :: post) = h.unregisterAllClients ∧
    h.unregisterAllClients.clients = [] ∧
    (∀ k, k ∈ h.clients.map Prod.fst →
      h.unregisterAllClients.chans k = (h.chans k).closeChan) ∧
    (∀ k, k ∉ h.clients.map Prod.fst →
      h.unregisterAllClients.chans k = h.chans k) := by
  refine ⟨rfl, ?_, ?_, ?_⟩
  · exact foldl_unregisterAllStep_clients_nil _ h
      fun p hp => List.mem_map_of_mem Prod.fst hp
  · exact fun k hk => foldl_unregisterAllStep_chans_mem _ h k hnd hk
  · exact fun k hk => foldl_unregisterAllStep_chans_notmem _ h k hk

/-- The C9 hub: two registered clients on spokes 0 and 1, both channels open
and never closed before. -/
def hubC9 : WebsocketHub :=
  { clients := [(0, newClient), (1, newClient)]
    chans := fun _ => freshChan
    numClients := 2
    timeToSendTxBuffer := false }

/-- Closed instance of C9 on `hubC9`, with a pending event after the quit
signal that is provably never processed. -/
theorem shutdown_complete_witness :
    hubC9.runLoop [HubInput.quit, HubInput.relay ⟨.sigNewBlock, .noMsg⟩] =
      hubC9.unregisterAllClients ∧
    hubC9.unregisterAllClients.clients = [] ∧
    hubC9.unregisterAllClients.chans 0 = (hubC9.chans 0).closeChan ∧
    hubC9.unregisterAllClients.chans 0 =
      { queue := [], closed := true, closeCount := 1 } ∧
    hubC9.unregisterAllClients.chans 5 = hubC9.chans 5 := by
  have h := shutdown_complete hubC9 [HubInput.relay ⟨.sigNewBlock, .noMsg⟩] (by decide)
  exact ⟨h.1, h.2.1, h.2.2.1 0 (by decide), by rw [h.2.2.1 0 (by decide)]; rfl,
    h.2.2.2 5 (by decide)⟩

end Fnodata
